import Mathlib

/-!
# FlowImageDataLayer

A shallow embedding of `src/caffe/layers/flow_image_data_layer.cpp`
(`FlowImageDataLayer::DataLayerSetUp`, `ShuffleImages`, `InternalThreadEntry`)
and the properties of its manifest reader, ordering controller, sample
assembler, transform gate and batch fill.

Conventions of the embedding.

* A glog `CHECK` that fails aborts the process; the functions below return
  `Except Failure _` and name the failing source line in the `Failure`.
* Indexing a `std::vector` out of range and dereferencing the null
  `prefetch_rng_` are undefined behaviour in the source; the embedding stops
  there with a `Failure` of its own (`linesOutOfRange`, `pathOutOfRange`,
  `slotOutOfRange`, `nullRng`), so that no theorem speaks about what happens
  afterwards.
* `int`, `unsigned int` and `size_t` quantities are natural numbers: the
  manifest length is taken to fit in `int`, as the source itself does at
  `const int lines_size = lines_.size()`.
* The three copies of the "append flows to image" block (lines 72-82, 148-158
  and 177-187) are one function, `appendFlows`.
-/

namespace caffe

/-! ## Data model -/

/-- One manifest line, `vector<std::string>`: the path tokens of a record. -/
abbrev Record := List String

/-- A decoded image, `cv::Mat`: `rows`, `cols` and one plane of 8-bit pixel values
per channel, in channel order. -/
structure Mat where
  rows : Nat
  cols : Nat
  planes : List (List Nat)
deriving DecidableEq, Repr

/-- Channel count, `cv::Mat::channels()`. -/
def Mat.channels (m : Mat) : Nat := m.planes.length

/-- Whether `cv::Mat::data` is non-null: a matrix without elements owns no data. -/
def Mat.data (m : Mat) : Bool := decide (m.rows ≠ 0) && decide (m.cols ≠ 0)

/-- Largest channel count of a `cv::Mat` (`CV_CN_MAX`). -/
def CV_CN_MAX : Nat := 512

/-- Channel concatenation `cv::merge(Mat_Arr, dst)`: OpenCV asserts that the array is
non-empty, that every matrix has the size of the first one, and that the total
channel count lies in `1 .. CV_CN_MAX`; the result has the planes of the inputs,
in array order. `none` is the failed assertion. -/
def cv_merge : List Mat → Option Mat
  | [] => none
  | m0 :: ms =>
    if (m0 :: ms).all (fun m => decide (m.rows = m0.rows) && decide (m.cols = m0.cols)) then
      if 0 < ((m0 :: ms).map Mat.channels).sum ∧ ((m0 :: ms).map Mat.channels).sum ≤ CV_CN_MAX then
        some ⟨m0.rows, m0.cols, ((m0 :: ms).map Mat.planes).flatten⟩
      else none
    else none

/-- Blob dimensions `(num, channels, height, width)`. -/
structure Shape where
  num : Nat
  channels : Nat
  height : Nat
  width : Nat
deriving DecidableEq, Repr

/-- Number of elements, `Blob::count()`. -/
def Shape.count (s : Shape) : Nat := s.num * s.channels * s.height * s.width

/-- Modelled from the spec: the pixel-level transform primitive
(`DataTransformer::Transform`, not under src/) is "an opaque function: apply a
deterministic or randomized transform to a source buffer, writing into a
destination buffer slice, with a flag selecting label-safe mode". What it writes
into an item slice is represented by the arguments of the call: the source buffer
and the flag (`none` when the call omits it). -/
structure Slice where
  src : Mat
  preserve_pixel_vals : Option Bool
deriving DecidableEq, Repr

/-- A batch buffer (`prefetch_data_`, `prefetch_label_`): its shape and, for each of
its `num` item slices, what was last written there (`none`: nothing since the last
`Reshape`). -/
structure Blob where
  shape : Shape
  items : List (Option Slice)
deriving DecidableEq, Repr

/-- Reallocation `Blob::Reshape(num, channels, height, width)`. -/
def Blob.Reshape (n c h w : Nat) : Blob := ⟨⟨n, c, h, w⟩, List.replicate n none⟩

/-- The recognised options of `flow_image_data_param`. -/
structure FlowImageDataParameter where
  source : String
  root_folder : String
  batch_size : Nat
  new_height : Nat
  new_width : Nat
  is_color : Bool
  shuffle : Bool
  rand_skip : Nat
deriving DecidableEq, Repr

/-- The options of `transform_param` this layer reads. -/
structure TransformationParameter where
  mirror : Bool
  crop_size : Nat
deriving DecidableEq, Repr

/-- The layer configuration, `layer_param_`. -/
structure LayerParameter where
  flow_image_data_param : FlowImageDataParameter
  transform_param : TransformationParameter
deriving DecidableEq, Repr

/-- Modelled from the spec: the external collaborators of the layer, none of them
under src/. `file` is the file system as `std::ifstream` sees it (`none`: the path
cannot be opened). `ReadImageToCVMat filename height width is_color nn` is the
decode primitive, "decode image file to a rectangular multi-channel pixel buffer,
optionally resized, optionally forced to single-channel" (`nn` is the fifth
argument, `none` where the call omits it). `shuffle` is `caffe::shuffle` on the
manifest with the state of the generator, "in-place random permutation of
Manifest". -/
structure World where
  file : String → Option String
  ReadImageToCVMat : String → Nat → Nat → Bool → Option Bool → Mat
  shuffle : Nat → List Record → List Record × Nat
  shuffle_perm : ∀ (g : Nat) (l : List Record), ((shuffle g l).1).Perm l

/-- The ways a run stops: the failed `CHECK` (by source line), a failed OpenCV
assertion, or undefined behaviour of the source. -/
inductive Failure where
  /-- Line 32, "requires new_height and new_width to be set at the same time". -/
  | resizeConfig
  /-- Line 64, `CHECK_GT(lines_.size(), skip)`, "Not enough points to skip". -/
  | notEnoughPointsToSkip
  /-- Line 90, "Can only handle grayscale label images". -/
  | grayscaleLabel
  /-- Line 91, "Input and label image heights and widths must match". -/
  | shapeMismatch
  /-- Line 134, `CHECK(this->prefetch_data_.count())`. -/
  | prefetchCount
  /-- Line 135, `CHECK(this->transformed_data_.count())`. -/
  | transformedCount
  /-- Line 173, `CHECK_GT(lines_size, lines_id_)`. -/
  | linesIdRange
  /-- Lines 176 and 190, "Could not load". -/
  | couldNotLoad (path : String)
  /-- Line 202, the transform gate, "FIXME: Any stochastic transformation will break layer". -/
  | stochasticTransform
  /-- The assertion of `cv::merge` at lines 80, 156, 185. -/
  | cvMergeAssert
  /-- Access `lines_[lines_id_]` out of range. -/
  | linesOutOfRange
  /-- Access `lines_[lines_id_][j]` out of range. -/
  | pathOutOfRange
  /-- Item slice `item_id` outside the batch buffer. -/
  | slotOutOfRange
  /-- Use of `prefetch_rng_` before it was set. -/
  | nullRng
deriving DecidableEq, Repr

deriving instance DecidableEq for Except

/-- The members of the layer the two functions read and write. -/
structure Layer where
  lines_ : List Record
  lines_id_ : Nat
  prefetch_rng_ : Option Nat
  prefetch_data_ : Blob
  prefetch_label_ : Blob
  transformed_data_ : Shape
  transformed_label_ : Shape
  top0 : Shape
  top1 : Shape
deriving DecidableEq, Repr

/-! ## Manifest reader (lines 38-47) -/

/-- The loop `while (std::getline(infile, line))` over the characters of the file:
a line ends at a newline, which is dropped; at the end of the file a line is
delivered only when at least one character was extracted. -/
def getlinesAux : List Char → List Char → List (List Char)
  | cur, [] => if cur = [] then [] else [cur]
  | cur, c :: rest =>
    if c = '\n' then cur :: getlinesAux [] rest else getlinesAux (cur ++ [c]) rest

/-- All lines `std::getline` delivers for a file content. -/
def getlines (content : String) : List (List Char) := getlinesAux [] content.data

/-- Whitespace of the stream extractor (`std::isspace` in the "C" locale). -/
def isspace (c : Char) : Bool :=
  c = ' ' || c = '\t' || c = '\n' || c = '\x0b' || c = '\x0c' || c = '\r'

/-- The range `istream_iterator<std::string>(ss), end`: the maximal runs of
non-whitespace characters of a line, in order. -/
def tokensAux : List Char → List Char → List String
  | cur, [] => if cur = [] then [] else [String.mk cur]
  | cur, c :: rest =>
    if isspace c then
      (if cur = [] then tokensAux [] rest else String.mk cur :: tokensAux [] rest)
    else tokensAux (cur ++ [c]) rest

/-- The record pushed for one line (line 46). -/
def parseLine (line : List Char) : Record := tokensAux [] line

/-- Lines 38-47: `lines_` after the reading loop. A stream that failed to open
delivers no line. -/
def readManifest : Option String → List Record
  | none => []
  | some content => (getlines content).map parseLine

/-- A blank or whitespace-only line. -/
def isBlankLine (line : List Char) : Bool := line.all isspace

/-- The number of non-empty lines of a file, in the words of the spec: the lines
that are neither blank nor whitespace-only. -/
def nonEmptyLineCount (content : String) : Nat :=
  ((getlines content).filter (fun l => !isBlankLine l)).length

/-- The number of blank or whitespace-only lines of a file. -/
def blankLineCount (content : String) : Nat :=
  ((getlines content).filter isBlankLine).length

/-! ## Ordering controller -/

/-- Lines 58-66: the cursor after the optional random skip; `draw` is the value
of `caffe_rng_rand()`. -/
def skipAhead (rand_skip draw lines_size : Nat) : Except Failure Nat :=
  if rand_skip ≠ 0 then
    if lines_size > draw % rand_skip then .ok (draw % rand_skip)
    else .error .notEnoughPointsToSkip
  else .ok 0

/-- The member function `ShuffleImages` (lines 119-124). -/
def ShuffleImages (w : World) (st : Layer) : Except Failure Layer :=
  match st.prefetch_rng_ with
  | none => .error .nullRng
  | some g =>
    .ok { st with lines_ := (w.shuffle g st.lines_).1, prefetch_rng_ := some (w.shuffle g st.lines_).2 }

/-! ## Sample assembler -/

/-- The block "Append flows to image": when the record has more than two paths,
each path from position 2 on is decoded as a single-channel image and merged, in
record order, after the base image. -/
def appendFlows (w : World) (root_folder : String) (record : Record)
    (new_height new_width : Nat) (cv_img : Mat) : Except Failure Mat :=
  if record.length > 2 then
    match cv_merge (cv_img :: (record.drop 2).map
        (fun p => w.ReadImageToCVMat (root_folder ++ p) new_height new_width false (some false))) with
    | some cv_img_flow => .ok cv_img_flow
    | none => .error .cvMergeAssert
  else .ok cv_img

/-- Lines 69-82: the input buffer setup assembles for a record. -/
def setupInput (p : LayerParameter) (w : World) (record : Record) : Except Failure Mat :=
  match record[0]? with
  | none => .error .pathOutOfRange
  | some p0 =>
    appendFlows w p.flow_image_data_param.root_folder record
      p.flow_image_data_param.new_height p.flow_image_data_param.new_width
      (w.ReadImageToCVMat (p.flow_image_data_param.root_folder ++ p0)
        p.flow_image_data_param.new_height p.flow_image_data_param.new_width
        p.flow_image_data_param.is_color none)

/-- Lines 88-89 and 188-189: the label image of a record. -/
def readLabel (p : LayerParameter) (w : World) (record : Record) : Except Failure Mat :=
  match record[1]? with
  | none => .error .pathOutOfRange
  | some p1 =>
    .ok (w.ReadImageToCVMat (p.flow_image_data_param.root_folder ++ p1)
      p.flow_image_data_param.new_height p.flow_image_data_param.new_width false (some true))

/-! ## Setup -/

/-- Lines 95-113: the members after the blobs are shaped. -/
def shapeBlobs (p : LayerParameter) (lines : List Record) (lines_id : Nat)
    (rng : Option Nat) (channels height width : Nat) : Layer :=
  if p.transform_param.crop_size > 0 then
    { lines_ := lines, lines_id_ := lines_id, prefetch_rng_ := rng,
      top0 := ⟨p.flow_image_data_param.batch_size, channels,
        p.transform_param.crop_size, p.transform_param.crop_size⟩,
      prefetch_data_ := Blob.Reshape p.flow_image_data_param.batch_size channels
        p.transform_param.crop_size p.transform_param.crop_size,
      transformed_data_ := ⟨1, channels, p.transform_param.crop_size, p.transform_param.crop_size⟩,
      top1 := ⟨p.flow_image_data_param.batch_size, 1,
        p.transform_param.crop_size, p.transform_param.crop_size⟩,
      prefetch_label_ := Blob.Reshape p.flow_image_data_param.batch_size 1
        p.transform_param.crop_size p.transform_param.crop_size,
      transformed_label_ := ⟨1, 1, p.transform_param.crop_size, p.transform_param.crop_size⟩ }
  else
    { lines_ := lines, lines_id_ := lines_id, prefetch_rng_ := rng,
      top0 := ⟨p.flow_image_data_param.batch_size, channels, height, width⟩,
      prefetch_data_ := Blob.Reshape p.flow_image_data_param.batch_size channels height width,
      transformed_data_ := ⟨1, channels, height, width⟩,
      top1 := ⟨p.flow_image_data_param.batch_size, 1, height, width⟩,
      prefetch_label_ := Blob.Reshape p.flow_image_data_param.batch_size 1 height width,
      transformed_label_ := ⟨1, 1, height, width⟩ }

/-- Lines 68-113: decode the record at the cursor, validate its label against the
assembled input buffer and shape the blobs. -/
def setupFirstRecord (p : LayerParameter) (w : World) (lines : List Record)
    (lines_id : Nat) (rng : Option Nat) : Except Failure Layer :=
  match lines[lines_id]? with
  | none => .error .linesOutOfRange
  | some record =>
    match setupInput p w record with
    | .error e => .error e
    | .ok cv_img =>
      match readLabel p w record with
      | .error e => .error e
      | .ok cv_lab =>
        if cv_lab.channels ≠ 1 then .error .grayscaleLabel
        else if ¬ (cv_lab.rows = cv_img.rows ∧ cv_lab.cols = cv_img.cols) then
          .error .shapeMismatch
        else .ok (shapeBlobs p lines lines_id rng cv_img.channels cv_img.rows cv_img.cols)

/-- Lines 49-55: the manifest and the generator after the optional first shuffle;
`seed` is the value of `caffe_rng_rand()` the generator is seeded with. -/
def setupShuffle (p : LayerParameter) (w : World) (seed : Nat) (lines : List Record) :
    List Record × Option Nat :=
  if p.flow_image_data_param.shuffle then
    ((w.shuffle seed lines).1, some (w.shuffle seed lines).2)
  else (lines, none)

/-- The function `DataLayerSetUp` (lines 25-117). `seed` and `draw` are the values
the two calls of `caffe_rng_rand()` return. -/
def DataLayerSetUp (p : LayerParameter) (w : World) (seed draw : Nat) : Except Failure Layer :=
  if ¬ ((p.flow_image_data_param.new_height = 0 ∧ p.flow_image_data_param.new_width = 0) ∨
      (p.flow_image_data_param.new_height > 0 ∧ p.flow_image_data_param.new_width > 0)) then
    .error .resizeConfig
  else
    match skipAhead p.flow_image_data_param.rand_skip draw
        (setupShuffle p w seed (readManifest (w.file p.flow_image_data_param.source))).1.length with
    | .error e => .error e
    | .ok lines_id =>
      setupFirstRecord p w
        (setupShuffle p w seed (readManifest (w.file p.flow_image_data_param.source))).1
        lines_id
        (setupShuffle p w seed (readManifest (w.file p.flow_image_data_param.source))).2

/-! ## Batch fill -/

/-- Lines 145-165: with `batch_size == 1` and neither crop nor resize, the blobs
are reshaped to the assembled input buffer of the record at the cursor. -/
def nativeReshape (p : LayerParameter) (w : World) (st : Layer) : Except Failure Layer :=
  if p.flow_image_data_param.batch_size = 1 ∧ p.transform_param.crop_size = 0 ∧
      p.flow_image_data_param.new_height = 0 ∧ p.flow_image_data_param.new_width = 0 then
    match st.lines_[st.lines_id_]? with
    | none => .error .linesOutOfRange
    | some record =>
      match record[0]? with
      | none => .error .pathOutOfRange
      | some p0 =>
        match appendFlows w p.flow_image_data_param.root_folder record
            p.flow_image_data_param.new_height p.flow_image_data_param.new_width
            (w.ReadImageToCVMat (p.flow_image_data_param.root_folder ++ p0) 0 0
              p.flow_image_data_param.is_color none) with
        | .error e => .error e
        | .ok cv_img =>
          .ok { st with
            prefetch_data_ := Blob.Reshape 1 cv_img.channels cv_img.rows cv_img.cols,
            transformed_data_ := ⟨1, cv_img.channels, cv_img.rows, cv_img.cols⟩,
            prefetch_label_ := Blob.Reshape 1 1 cv_img.rows cv_img.cols,
            transformed_label_ := ⟨1, 1, cv_img.rows, cv_img.cols⟩ }
  else .ok st

/-- Lines 174-190: the input and label buffers of one item. -/
def readItem (p : LayerParameter) (w : World) (record : Record) : Except Failure (Mat × Mat) :=
  match record[0]? with
  | none => .error .pathOutOfRange
  | some p0 =>
    if (w.ReadImageToCVMat (p.flow_image_data_param.root_folder ++ p0)
        p.flow_image_data_param.new_height p.flow_image_data_param.new_width
        p.flow_image_data_param.is_color none).data = false then
      .error (.couldNotLoad p0)
    else
      match appendFlows w p.flow_image_data_param.root_folder record
          p.flow_image_data_param.new_height p.flow_image_data_param.new_width
          (w.ReadImageToCVMat (p.flow_image_data_param.root_folder ++ p0)
            p.flow_image_data_param.new_height p.flow_image_data_param.new_width
            p.flow_image_data_param.is_color none) with
      | .error e => .error e
      | .ok cv_img =>
        match record[1]? with
        | none => .error .pathOutOfRange
        | some p1 =>
          if (w.ReadImageToCVMat (p.flow_image_data_param.root_folder ++ p1)
              p.flow_image_data_param.new_height p.flow_image_data_param.new_width
              false (some true)).data = false then
            .error (.couldNotLoad p1)
          else
            .ok (cv_img, w.ReadImageToCVMat (p.flow_image_data_param.root_folder ++ p1)
              p.flow_image_data_param.new_height p.flow_image_data_param.new_width
              false (some true))

/-- Lines 194-201: the two `Transform` calls write the item slices `item_id` of
`prefetch_data_` and `prefetch_label_`. -/
def transformItem (item_id : Nat) (cv_img cv_lab : Mat) (st : Layer) : Except Failure Layer :=
  if item_id < st.prefetch_data_.items.length ∧ item_id < st.prefetch_label_.items.length then
    .ok { st with
      prefetch_data_ :=
        ⟨st.prefetch_data_.shape, st.prefetch_data_.items.set item_id (some ⟨cv_img, none⟩)⟩,
      prefetch_label_ :=
        ⟨st.prefetch_label_.shape, st.prefetch_label_.items.set item_id (some ⟨cv_lab, some true⟩)⟩ }
  else .error .slotOutOfRange

/-- Lines 208-217: go to the next record; at the end restart from the first one and
reshuffle when configured. -/
def advance (p : LayerParameter) (w : World) (lines_size : Nat) (st : Layer) :
    Except Failure Layer :=
  if st.lines_id_ + 1 ≥ lines_size then
    if p.flow_image_data_param.shuffle then ShuffleImages w { st with lines_id_ := 0 }
    else .ok { st with lines_id_ := 0 }
  else .ok { st with lines_id_ := st.lines_id_ + 1 }

/-- One iteration of the item loop (lines 170-218). -/
def fillItem (p : LayerParameter) (w : World) (lines_size item_id : Nat) (st : Layer) :
    Except Failure Layer :=
  if ¬ (lines_size > st.lines_id_) then .error .linesIdRange
  else
    match st.lines_[st.lines_id_]? with
    | none => .error .linesOutOfRange
    | some record =>
      match readItem p w record with
      | .error e => .error e
      | .ok (cv_img, cv_lab) =>
        match transformItem item_id cv_img cv_lab st with
        | .error e => .error e
        | .ok st1 =>
          if ¬ (p.transform_param.mirror = false ∧ p.transform_param.crop_size = 0) then
            .error .stochasticTransform
          else advance p w lines_size st1

/-- The loop `for (item_id = 0; item_id < batch_size; ++item_id)`, from `item_id`
with `remaining` iterations to go. -/
def fillLoop (p : LayerParameter) (w : World) (lines_size : Nat) :
    Nat → Nat → Layer → Except Failure Layer
  | _, 0, st => .ok st
  | item_id, remaining + 1, st =>
    match fillItem p w lines_size item_id st with
    | .error e => .error e
    | .ok st1 => fillLoop p w lines_size (item_id + 1) remaining st1

/-- The function `InternalThreadEntry` (lines 127-223): one batch fill. -/
def InternalThreadEntry (p : LayerParameter) (w : World) (st : Layer) : Except Failure Layer :=
  if st.prefetch_data_.shape.count = 0 then .error .prefetchCount
  else if st.transformed_data_.count = 0 then .error .transformedCount
  else
    match nativeReshape p w st with
    | .error e => .error e
    | .ok st1 => fillLoop p w st1.lines_.length 0 p.flow_image_data_param.batch_size st1

/-- The layer after `k` consecutive batch fills. -/
def fills (p : LayerParameter) (w : World) : Nat → Layer → Except Failure Layer
  | 0, st => .ok st
  | k + 1, st =>
    match fills p w k st with
    | .error e => .error e
    | .ok st1 => InternalThreadEntry p w st1

/-! ## A concrete world for the scenarios -/

/-- A stand-in decoder for the scenarios: a file whose name ends in `missing.png`
cannot be read (empty matrix); any other file is `3 x 3` when its name ends in
`big.png` and `2 x 2` otherwise, unless a resize target is given; it has three
planes when decoded in colour and one otherwise, filled with a value that depends
on the file name. -/
def demoDecode (filename : String) (height width : Nat) (is_color : Bool)
    (_nn : Option Bool) : Mat :=
  if "missing.png".data.isSuffixOf filename.data then ⟨0, 0, [[]]⟩
  else
    ⟨if height > 0 ∧ width > 0 then height
        else if "big.png".data.isSuffixOf filename.data then 3 else 2,
      if height > 0 ∧ width > 0 then width
        else if "big.png".data.isSuffixOf filename.data then 3 else 2,
      List.replicate (if is_color then 3 else 1) [(filename.data.map Char.toNat).sum % 256]⟩

/-- A world whose only manifest has the given content (`none`: no file can be
opened), with `demoDecode` as decoder and list reversal as shuffle. -/
def demoWorld (content : Option String) : World where
  file := fun _ => content
  ReadImageToCVMat := demoDecode
  shuffle := fun g l => (l.reverse, g + 1)
  shuffle_perm := fun _ l => List.reverse_perm l

/-- A configuration for the scenarios: native size, colour base image, no shuffle,
no mirror, no crop. -/
def demoParam (batch_size rand_skip : Nat) : LayerParameter :=
  { flow_image_data_param :=
      { source := "train.txt", root_folder := "", batch_size := batch_size,
        new_height := 0, new_width := 0, is_color := true, shuffle := false,
        rand_skip := rand_skip },
    transform_param := { mirror := false, crop_size := 0 } }

/-- A manifest of four records. -/
def fourRecords : String := "a0.png l0.png\na1.png l1.png\na2.png l2.png\na3.png l3.png\n"

/-- A manifest of five records. -/
def fiveRecords : String :=
  "a0.png l0.png\na1.png l1.png\na2.png l2.png\na3.png l3.png\na4.png l4.png\n"

/-- The layer as setup leaves it in the scenarios (a `2 x 2` colour first record),
with the cursor at `lines_id`. -/
def demoLayer (content : String) (batch_size lines_id : Nat) : Layer :=
  shapeBlobs (demoParam batch_size 0) (readManifest (some content)) lines_id none 3 2 2

/-- The scenario configuration with random mirroring switched on. -/
def mirrorParam (batch_size : Nat) : LayerParameter :=
  { flow_image_data_param := (demoParam batch_size 0).flow_image_data_param,
    transform_param := { mirror := true, crop_size := 0 } }

/-! ## Predicates used by the statements -/

theorem setupShuffle_length (p : LayerParameter) (w : World) (seed : Nat) (lines : List Record) :
    (setupShuffle p w seed lines).1.length = lines.length := by
  unfold setupShuffle
  split
  · exact (w.shuffle_perm seed lines).length_eq
  · rfl

theorem skipAhead_ok (B r n c : Nat) (h : skipAhead B r n = .ok c) :
    c = (if B = 0 then 0 else r % B) ∧ (B ≠ 0 → c < n) := by
  unfold skipAhead at h
  by_cases hB : B = 0
  · simp [hB] at h; simp [hB, h]
  · by_cases hn : n > r % B
    · simp [hB, hn] at h; simp [hB, ← h]; exact hn
    · simp [hB, hn] at h

theorem skipAhead_error (B r n : Nat) (e : Failure) (h : skipAhead B r n = .error e) :
    e = .notEnoughPointsToSkip ∧ B ≠ 0 ∧ n ≤ r % B := by
  unfold skipAhead at h
  by_cases hB : B = 0
  · simp [hB] at h
  · by_cases hn : n > r % B
    · simp [hB, hn] at h
    · simp [hB, hn] at h; exact ⟨h.symm, hB, Nat.le_of_not_lt hn⟩

theorem appendFlows_error (w : World) (root : String) (record : Record) (h wd : Nat) (m : Mat)
    (e : Failure) (he : appendFlows w root record h wd m = .error e) : e = .cvMergeAssert := by
  unfold appendFlows at he
  split at he
  · split at he
    · cases he
    · cases he; rfl
  · cases he

theorem setupFirstRecord_error (p : LayerParameter) (w : World) (lines : List Record)
    (c : Nat) (rng : Option Nat) (e : Failure)
    (h : setupFirstRecord p w lines c rng = .error e) : e ≠ .notEnoughPointsToSkip := by
  unfold setupFirstRecord at h
  split at h
  · cases h; simp
  · split at h
    · rename_i e1 h1
      cases h
      unfold setupInput at h1
      split at h1
      · cases h1; simp
      · rw [appendFlows_error _ _ _ _ _ _ _ h1]; simp
    · split at h
      · rename_i e1 h1
        cases h
        unfold readLabel at h1
        split at h1
        · cases h1; simp
        · cases h1
      · split at h
        · cases h; simp
        · split at h
          · cases h; simp
          · cases h

theorem setup_skip_error_iff (p : LayerParameter) (w : World) (seed draw : Nat)
    (hres : (p.flow_image_data_param.new_height = 0 ∧ p.flow_image_data_param.new_width = 0) ∨
      (p.flow_image_data_param.new_height > 0 ∧ p.flow_image_data_param.new_width > 0)) :
    DataLayerSetUp p w seed draw = .error .notEnoughPointsToSkip ↔
      (p.flow_image_data_param.rand_skip ≠ 0 ∧
        (readManifest (w.file p.flow_image_data_param.source)).length
          ≤ draw % p.flow_image_data_param.rand_skip) := by
  unfold DataLayerSetUp
  simp only [hres, not_true_eq_false, if_false, setupShuffle_length]
  constructor
  · intro h
    split at h
    · rename_i e he
      exact (skipAhead_error _ _ _ _ he).2
    · exact absurd rfl (setupFirstRecord_error _ _ _ _ _ _ h)
  · rintro ⟨hB, hn⟩
    have : skipAhead p.flow_image_data_param.rand_skip draw
        (readManifest (w.file p.flow_image_data_param.source)).length
        = .error .notEnoughPointsToSkip := by
      unfold skipAhead
      simp [hB, Nat.not_lt.mpr hn]
    rw [this]

theorem setup_ok_cursor (p : LayerParameter) (w : World) (seed draw : Nat) (st : Layer)
    (h : DataLayerSetUp p w seed draw = .ok st) :
    st.lines_id_ = (if p.flow_image_data_param.rand_skip = 0 then 0
        else draw % p.flow_image_data_param.rand_skip)
    ∧ st.lines_id_ < st.lines_.length
    ∧ st.lines_.length = (readManifest (w.file p.flow_image_data_param.source)).length := by
  unfold DataLayerSetUp at h
  split at h
  · cases h
  · split at h
    · cases h
    · rename_i c hc
      have hc1 := skipAhead_ok _ _ _ _ hc
      unfold setupFirstRecord at h
      split at h
      · cases h
      · rename_i record hrec
        have hlt : c < (setupShuffle p w seed
            (readManifest (w.file p.flow_image_data_param.source))).1.length := by
          by_contra hge
          rw [List.getElem?_eq_none (Nat.le_of_not_lt hge)] at hrec
          cases hrec
        split at h
        · cases h
        · split at h
          · cases h
          · split at h
            · cases h
            · split at h
              · cases h
              · cases h
                unfold shapeBlobs
                split <;> exact ⟨hc1.1, hlt, setupShuffle_length _ _ _ _⟩

theorem setupShuffle_nil (p : LayerParameter) (w : World) (seed : Nat) :
    (setupShuffle p w seed []).1 = [] :=
  List.eq_nil_of_length_eq_zero (setupShuffle_length p w seed [])

theorem setupFirstRecord_nil (p : LayerParameter) (w : World) (c : Nat) (rng : Option Nat) :
    setupFirstRecord p w [] c rng = .error .linesOutOfRange := by
  simp [setupFirstRecord]
/-! ## Manifest reader (C4) -/

theorem tokensAux_eq_nil (l : List Char) : ∀ cur : List Char,
    tokensAux cur l = [] ↔ (cur = [] ∧ l.all isspace = true) := by
  induction l with
  | nil => intro cur; by_cases h : cur = [] <;> simp [tokensAux, h]
  | cons c rest ih =>
    intro cur
    by_cases hc : isspace c = true
    · by_cases h : cur = []
      · simp [tokensAux, hc, h, ih]
      · simp [tokensAux, hc, h]
    · simp [tokensAux, hc, ih]

theorem parseLine_eq_nil (l : List Char) : parseLine l = [] ↔ isBlankLine l = true := by
  simp [parseLine, isBlankLine, tokensAux_eq_nil]

theorem getlinesAux_length (l : List Char) : ∀ cur : List Char,
    (getlinesAux cur l).length = l.count '\n' +
      (match l.getLast? with
       | none => if cur = [] then 0 else 1
       | some c => if c = '\n' then 0 else 1) := by
  induction l with
  | nil => intro cur; by_cases h : cur = [] <;> simp [getlinesAux, h]
  | cons c rest ih =>
    intro cur
    by_cases hc : c = '\n'
    · subst hc
      simp only [getlinesAux, if_true, List.length_cons, ih, List.count_cons_self]
      cases rest with
      | nil => simp
      | cons d r =>
        obtain ⟨x, hx⟩ : ∃ x, (d :: r).getLast? = some x :=
          ⟨_, List.getLast?_eq_getLast _ (by simp)⟩
        simp only [List.getLast?_cons_cons, hx]; omega
    · have hc' : ('\n' == c) = false := by
        simp; exact fun h => hc h.symm
      simp only [getlinesAux, hc, if_false, ih]
      cases rest with
      | nil => simp [hc, List.count_cons, hc']
      | cons d r =>
        obtain ⟨x, hx⟩ : ∃ x, (d :: r).getLast? = some x :=
          ⟨_, List.getLast?_eq_getLast _ (by simp)⟩
        simp [List.getLast?_cons_cons, hx, List.count_cons, hc', hc]

theorem filter_length_split {α : Type} (f : α → Bool) (l : List α) :
    l.length = (l.filter (fun x => !f x)).length + (l.filter f).length := by
  induction l with
  | nil => rfl
  | cons a t ih => by_cases h : f a = true <;> simp [List.filter_cons, h] <;> omega

/-- C4, counterexample: a file of two records separated by a blank line yields a
manifest of three records, while it has two non-empty lines. -/
theorem C4_blank_line_is_a_record :
    (readManifest (some "a.png b.png\n\nc.png d.png\n")).length
      ≠ nonEmptyLineCount "a.png b.png\n\nc.png d.png\n" := by decide

/-- C4, amended: the manifest has one record per line of the file, blank lines
included: its length is the number of non-empty lines plus the number of blank or
whitespace-only lines, that is the number of newline characters plus one for an
unterminated last line. Exactly the blank or whitespace-only lines contribute an
empty record, and the length equals the number of non-empty lines exactly when the
file has no such line. -/
theorem C4_manifest_length (content : String) :
    (readManifest (some content)).length = nonEmptyLineCount content + blankLineCount content
    ∧ (readManifest (some content)).length = content.data.count '\n' +
        (match content.data.getLast? with
         | none => 0
         | some c => if c = '\n' then 0 else 1)
    ∧ ((readManifest (some content)).filter (fun r => decide (r = []))).length
        = blankLineCount content
    ∧ ((readManifest (some content)).length = nonEmptyLineCount content
        ↔ blankLineCount content = 0) := by
  refine ⟨?_, ?_, ?_, ?_⟩
  · simp only [readManifest, List.length_map, nonEmptyLineCount, blankLineCount]
    exact filter_length_split isBlankLine _
  · simp only [readManifest, List.length_map, getlines]
    rw [getlinesAux_length]
    cases content.data.getLast? <;> simp
  · simp only [readManifest, blankLineCount, List.filter_map, List.length_map]
    congr 1
    apply List.filter_congr
    intro l _
    simp [parseLine_eq_nil]
  · simp only [readManifest, List.length_map, nonEmptyLineCount, blankLineCount]
    have := filter_length_split isBlankLine (getlines content)
    omega

/-! ## Random skip (C5, C6) -/

/-- C5, counterexample: with `rand_skip = 10`, a 4-record manifest and the generator
returning 2, the skip check passes and setup succeeds with the cursor at 2. -/
theorem C5_skip_passes_below_length :
    ∃ st, DataLayerSetUp (demoParam 2 10) (demoWorld (some fourRecords)) 0 2 = .ok st
      ∧ st.lines_.length = 4 ∧ st.lines_id_ = 2 :=
  ⟨_, rfl, by decide, by decide⟩

/-- C5, amended: for a bound `B = rand_skip` greater than the manifest length, setup
(with a consistent resize configuration) fails with "Not enough points to skip"
exactly for the generator values `r` with `r mod B >= len(Manifest)`; such values
exist (`r = B - 1`), and for the others the skip check passes. -/
theorem C5_skip_fails_iff_draw_beyond (p : LayerParameter) (w : World) (seed : Nat)
    (hres : (p.flow_image_data_param.new_height = 0 ∧ p.flow_image_data_param.new_width = 0) ∨
      (p.flow_image_data_param.new_height > 0 ∧ p.flow_image_data_param.new_width > 0))
    (hB : p.flow_image_data_param.rand_skip >
      (readManifest (w.file p.flow_image_data_param.source)).length) :
    (∀ r, DataLayerSetUp p w seed r = .error .notEnoughPointsToSkip ↔
        (readManifest (w.file p.flow_image_data_param.source)).length
          ≤ r % p.flow_image_data_param.rand_skip)
    ∧ DataLayerSetUp p w seed (p.flow_image_data_param.rand_skip - 1)
        = .error .notEnoughPointsToSkip
    ∧ (∀ r, r % p.flow_image_data_param.rand_skip
          < (readManifest (w.file p.flow_image_data_param.source)).length →
        skipAhead p.flow_image_data_param.rand_skip r
          (readManifest (w.file p.flow_image_data_param.source)).length
          = .ok (r % p.flow_image_data_param.rand_skip)) := by
  have hB0 : p.flow_image_data_param.rand_skip ≠ 0 := by omega
  refine ⟨fun r => ?_, ?_, fun r hr => ?_⟩
  · rw [setup_skip_error_iff p w seed r hres]
    exact ⟨fun h => h.2, fun h => ⟨hB0, h⟩⟩
  · rw [setup_skip_error_iff p w seed _ hres]
    refine ⟨hB0, ?_⟩
    rw [Nat.mod_eq_of_lt (by omega)]
    omega
  · unfold skipAhead
    simp [hB0, hr]

/-- C5, the amended claim at `rand_skip = 10` and a 4-record manifest: the draws 9
and 7 fail the check, the draw 2 passes it. -/
theorem C5_skip_fails_iff_draw_beyond_witness :
    DataLayerSetUp (demoParam 2 10) (demoWorld (some fourRecords)) 0 9
        = .error .notEnoughPointsToSkip
    ∧ DataLayerSetUp (demoParam 2 10) (demoWorld (some fourRecords)) 0 7
        = .error .notEnoughPointsToSkip
    ∧ skipAhead 10 2 4 = .ok 2 :=
  have h := C5_skip_fails_iff_draw_beyond (demoParam 2 10) (demoWorld (some fourRecords)) 0
    (Or.inl ⟨rfl, rfl⟩) (by decide)
  ⟨h.2.1, (h.1 7).mpr (by decide), h.2.2 2 (by decide)⟩

/-- C6: for every manifest, bound `B` and raw random value `r`: when `B > 0` the skip
step fails exactly when `r mod B >= len(Manifest)` (and then with "Not enough points
to skip", which is also the only way setup as a whole raises that failure), and
when it does not fail the cursor is `r mod B`, below `min(B, len(Manifest))`; when
`B = 0` no check is made and the cursor is 0. A successful setup leaves the cursor
the skip step computed. -/
theorem C6_skip_ahead (p : LayerParameter) (w : World) (seed : Nat)
    (lines : List Record) (B r : Nat) :
    (0 < B →
      ((∃ e, skipAhead B r lines.length = .error e) ↔ lines.length ≤ r % B)
      ∧ (skipAhead B r lines.length = .error .notEnoughPointsToSkip ↔ lines.length ≤ r % B)
      ∧ (r % B < lines.length →
          skipAhead B r lines.length = .ok (r % B) ∧ r % B < min B lines.length))
    ∧ skipAhead 0 r lines.length = .ok 0
    ∧ (((p.flow_image_data_param.new_height = 0 ∧ p.flow_image_data_param.new_width = 0) ∨
        (p.flow_image_data_param.new_height > 0 ∧ p.flow_image_data_param.new_width > 0)) →
      (DataLayerSetUp p w seed r = .error .notEnoughPointsToSkip ↔
        (p.flow_image_data_param.rand_skip ≠ 0 ∧
          (readManifest (w.file p.flow_image_data_param.source)).length
            ≤ r % p.flow_image_data_param.rand_skip)))
    ∧ (∀ st, DataLayerSetUp p w seed r = .ok st →
        st.lines_id_ = (if p.flow_image_data_param.rand_skip = 0 then 0
          else r % p.flow_image_data_param.rand_skip)
        ∧ (p.flow_image_data_param.rand_skip ≠ 0 →
          st.lines_id_ < min p.flow_image_data_param.rand_skip st.lines_.length)) := by
  refine ⟨fun hB => ?_, ?_, fun hres => setup_skip_error_iff p w seed r hres, fun st hst => ?_⟩
  · have hB0 : B ≠ 0 := by omega
    by_cases hn : lines.length > r % B
    · have hok : skipAhead B r lines.length = .ok (r % B) := by
        unfold skipAhead; simp [hB0, hn]
      refine ⟨?_, ?_, fun _ => ⟨hok, ?_⟩⟩
      · rw [hok]; simp; omega
      · rw [hok]; simp; omega
      · exact lt_min (Nat.mod_lt _ hB) hn
    · have herr : skipAhead B r lines.length = .error .notEnoughPointsToSkip := by
        unfold skipAhead; simp [hB0, hn]
      refine ⟨?_, ?_, fun h => absurd h hn⟩
      · rw [herr]; simp; omega
      · rw [herr]; simp; omega
  · unfold skipAhead; simp
  · have h := setup_ok_cursor p w seed r st hst
    refine ⟨h.1, fun hB0 => ?_⟩
    refine lt_min ?_ h.2.1
    rw [h.1]
    simp only [hB0, if_false]
    exact Nat.mod_lt _ (Nat.pos_of_ne_zero hB0)

/-- C6 at bound 3, raw value 7 and the 4-record manifest: cursor 1. -/
theorem C6_skip_ahead_witness :
    skipAhead 3 7 4 = .ok (7 % 3) ∧ 7 % 3 < min 3 4
    ∧ ∃ st, DataLayerSetUp (demoParam 2 3) (demoWorld (some fourRecords)) 0 7 = .ok st
        ∧ st.lines_id_ = 1 :=
  have h := C6_skip_ahead (demoParam 2 3) (demoWorld (some fourRecords)) 0
    (readManifest (some fourRecords)) 3 7
  ⟨(h.1 (by decide)).2.2 (by decide) |>.1, (h.1 (by decide)).2.2 (by decide) |>.2,
    _, rfl, (h.2.2.2 _ rfl).1⟩

/-! ## Unopenable manifest (C8) -/

/-- C8, counterexample: when the manifest cannot be opened, reading yields the empty
manifest and setup goes on to the skip step, whose check is the one that fails. -/
theorem C8_unopened_reaches_skip :
    readManifest ((demoWorld none).file (demoParam 2 3).flow_image_data_param.source) = []
    ∧ DataLayerSetUp (demoParam 2 3) (demoWorld none) 0 7 = .error .notEnoughPointsToSkip := by
  decide

/-- C8, amended: setup makes no check that the manifest could be opened. A path that
cannot be opened yields the empty manifest and setup proceeds exactly as for an
empty file; with `rand_skip > 0` (and a consistent resize configuration) it fails
fatally at the skip step with "Not enough points to skip". -/
theorem C8_unopened_is_empty_manifest (p : LayerParameter) (w w0 : World) (seed draw : Nat)
    (hopen : w.file p.flow_image_data_param.source = none)
    (hempty : w0.file p.flow_image_data_param.source = some "") :
    readManifest (w.file p.flow_image_data_param.source) = []
    ∧ DataLayerSetUp p w seed draw = DataLayerSetUp p w0 seed draw
    ∧ (((p.flow_image_data_param.new_height = 0 ∧ p.flow_image_data_param.new_width = 0) ∨
        (p.flow_image_data_param.new_height > 0 ∧ p.flow_image_data_param.new_width > 0)) →
      p.flow_image_data_param.rand_skip ≠ 0 →
      DataLayerSetUp p w seed draw = .error .notEnoughPointsToSkip) := by
  have h1 : readManifest (w.file p.flow_image_data_param.source) = [] := by
    rw [hopen]; rfl
  have h0 : readManifest (w0.file p.flow_image_data_param.source) = [] := by
    rw [hempty]; rfl
  refine ⟨h1, ?_, fun hres hB => ?_⟩
  · unfold DataLayerSetUp
    simp only [setupShuffle_length, h1, h0, setupShuffle_nil, setupFirstRecord_nil]
  · rw [setup_skip_error_iff p w seed draw hres, h1]
    exact ⟨hB, Nat.zero_le _⟩

/-- C8 amended, at a world without files against the world with an empty manifest. -/
theorem C8_unopened_is_empty_manifest_witness :
    DataLayerSetUp (demoParam 2 3) (demoWorld none) 0 7
      = DataLayerSetUp (demoParam 2 3) (demoWorld (some "")) 0 7
    ∧ DataLayerSetUp (demoParam 2 3) (demoWorld none) 0 7 = .error .notEnoughPointsToSkip :=
  have h := C8_unopened_is_empty_manifest (demoParam 2 3) (demoWorld none) (demoWorld (some ""))
    0 7 rfl rfl
  ⟨h.2.1, h.2.2 (Or.inl ⟨rfl, rfl⟩) (by decide)⟩
/-! ## Sample assembler (C2, C9) -/

theorem cv_merge_some (m0 : Mat) (ms : List Mat) (m : Mat) (h : cv_merge (m0 :: ms) = some m) :
    m.rows = m0.rows ∧ m.cols = m0.cols
    ∧ m.planes = m0.planes ++ (ms.map Mat.planes).flatten
    ∧ m.channels = m0.channels + (ms.map Mat.channels).sum := by
  simp only [cv_merge] at h
  split at h
  · split at h
    · cases h
      refine ⟨rfl, rfl, by simp, ?_⟩
      simp [Mat.channels, List.length_flatten, Function.comp_def]
      rfl
    · cases h
  · cases h

theorem cv_merge_isSome (m0 : Mat) (ms : List Mat)
    (hsz : ∀ m ∈ ms, m.rows = m0.rows ∧ m.cols = m0.cols)
    (hpos : 0 < m0.channels + (ms.map Mat.channels).sum)
    (hmax : m0.channels + (ms.map Mat.channels).sum ≤ CV_CN_MAX) :
    ∃ m, cv_merge (m0 :: ms) = some m := by
  simp only [cv_merge]
  have hall : (m0 :: ms).all (fun m => decide (m.rows = m0.rows) && decide (m.cols = m0.cols))
      = true := by
    simp only [List.all_cons, decide_True, Bool.and_self, Bool.true_and, List.all_eq_true,
      Bool.and_eq_true, decide_eq_true_eq]
    exact hsz
  rw [if_pos hall]
  simp only [List.map_cons, List.sum_cons]
  rw [if_pos ⟨hpos, hmax⟩]
  exact ⟨_, rfl⟩

theorem sum_map_eq_length {α : Type} (f : α → Nat) (l : List α) (h : ∀ a ∈ l, f a = 1) :
    (l.map f).sum = l.length := by
  induction l with
  | nil => rfl
  | cons a t ih =>
    simp only [List.map_cons, List.sum_cons, List.length_cons]
    rw [h a (List.mem_cons_self _ _), ih (fun b hb => h b (List.mem_cons_of_mem _ hb))]
    omega

theorem appendFlows_channels (w : World) (root : String) (record : Record) (h wd : Nat)
    (base m : Mat) (hlen : record.length > 2)
    (haux : ∀ q ∈ record.drop 2,
      (w.ReadImageToCVMat (root ++ q) h wd false (some false)).channels = 1)
    (hm : appendFlows w root record h wd base = .ok m) :
    m.channels = base.channels + (record.length - 2)
    ∧ m.planes = base.planes ++ ((record.drop 2).map
        (fun q => (w.ReadImageToCVMat (root ++ q) h wd false (some false)).planes)).flatten
    ∧ m.rows = base.rows ∧ m.cols = base.cols := by
  unfold appendFlows at hm
  rw [if_pos hlen] at hm
  split at hm
  · rename_i mm hmm
    cases hm
    have hs := cv_merge_some _ _ _ hmm
    refine ⟨?_, ?_, hs.1, hs.2.1⟩
    · rw [hs.2.2.2, List.map_map, sum_map_eq_length _ _ (fun q hq => by simpa using haux q hq)]
      simp
    · rw [hs.2.2.1, List.map_map]; rfl
  · cases hm

/-- C2: for a record with more than two paths, when the decode primitive returns 3
channels for a colour base image, 1 for a non-colour one and 1 for each auxiliary
image, every input buffer assembled from it, at setup (`setupInput`) and in a
batch-fill item (`readItem`), has `(3 if is_color else 1) + (paths - 2)` channels:
the planes of the base image followed by those of the auxiliary images in record
order. The buffer is assembled whenever the auxiliary images have the size of the
base image and the channel total is within OpenCV's limit. The blobs reshaped from
the buffer in native-size single-item mode get the same channel count. -/
theorem C2_assembled_channels (p : LayerParameter) (w : World) (record : Record) (p0 : String)
    (hlen : record.length > 2) (h0 : record[0]? = some p0)
    (hbase : (w.ReadImageToCVMat (p.flow_image_data_param.root_folder ++ p0)
        p.flow_image_data_param.new_height p.flow_image_data_param.new_width
        p.flow_image_data_param.is_color none).channels
      = if p.flow_image_data_param.is_color then 3 else 1)
    (haux : ∀ q ∈ record.drop 2,
      (w.ReadImageToCVMat (p.flow_image_data_param.root_folder ++ q)
        p.flow_image_data_param.new_height p.flow_image_data_param.new_width
        false (some false)).channels = 1) :
    (∀ cv_img, (setupInput p w record = .ok cv_img ∨ ∃ cv_lab, readItem p w record = .ok (cv_img, cv_lab)) →
      cv_img.channels = (if p.flow_image_data_param.is_color then 3 else 1) + (record.length - 2)
      ∧ cv_img.planes =
          (w.ReadImageToCVMat (p.flow_image_data_param.root_folder ++ p0)
            p.flow_image_data_param.new_height p.flow_image_data_param.new_width
            p.flow_image_data_param.is_color none).planes
          ++ ((record.drop 2).map (fun q =>
            (w.ReadImageToCVMat (p.flow_image_data_param.root_folder ++ q)
              p.flow_image_data_param.new_height p.flow_image_data_param.new_width
              false (some false)).planes)).flatten)
    ∧ ((∀ q ∈ record.drop 2,
          (w.ReadImageToCVMat (p.flow_image_data_param.root_folder ++ q)
            p.flow_image_data_param.new_height p.flow_image_data_param.new_width
            false (some false)).rows
          = (w.ReadImageToCVMat (p.flow_image_data_param.root_folder ++ p0)
            p.flow_image_data_param.new_height p.flow_image_data_param.new_width
            p.flow_image_data_param.is_color none).rows
          ∧ (w.ReadImageToCVMat (p.flow_image_data_param.root_folder ++ q)
            p.flow_image_data_param.new_height p.flow_image_data_param.new_width
            false (some false)).cols
          = (w.ReadImageToCVMat (p.flow_image_data_param.root_folder ++ p0)
            p.flow_image_data_param.new_height p.flow_image_data_param.new_width
            p.flow_image_data_param.is_color none).cols) →
        (if p.flow_image_data_param.is_color then 3 else 1) + (record.length - 2) ≤ CV_CN_MAX →
        ∃ cv_img, setupInput p w record = .ok cv_img)
    ∧ (∀ s s1, s.lines_[s.lines_id_]? = some record →
        (p.flow_image_data_param.batch_size = 1 ∧ p.transform_param.crop_size = 0 ∧
          p.flow_image_data_param.new_height = 0 ∧ p.flow_image_data_param.new_width = 0) →
        nativeReshape p w s = .ok s1 →
        s1.prefetch_data_.shape.channels
          = (if p.flow_image_data_param.is_color then 3 else 1) + (record.length - 2)) := by
  refine ⟨?_, ?_, ?_⟩
  · intro cv_img hcv
    have happ : appendFlows w p.flow_image_data_param.root_folder record
        p.flow_image_data_param.new_height p.flow_image_data_param.new_width
        (w.ReadImageToCVMat (p.flow_image_data_param.root_folder ++ p0)
          p.flow_image_data_param.new_height p.flow_image_data_param.new_width
          p.flow_image_data_param.is_color none) = .ok cv_img := by
      rcases hcv with hs | ⟨cv_lab, hr⟩
      · unfold setupInput at hs
        rw [h0] at hs
        exact hs
      · unfold readItem at hr
        rw [h0] at hr
        simp only at hr
        split at hr
        · cases hr
        · split at hr
          · cases hr
          · rename_i img himg
            split at hr
            · cases hr
            · split at hr
              · cases hr
              · cases hr
                exact himg
    have hc := appendFlows_channels w _ record _ _ _ cv_img hlen haux happ
    exact ⟨by rw [hc.1, hbase], hc.2.1⟩
  · intro hsz hmax
    unfold setupInput
    rw [h0]
    simp only
    unfold appendFlows
    rw [if_pos hlen]
    have hsum : (((record.drop 2).map (fun q =>
        w.ReadImageToCVMat (p.flow_image_data_param.root_folder ++ q)
          p.flow_image_data_param.new_height p.flow_image_data_param.new_width
          false (some false))).map Mat.channels).sum = record.length - 2 := by
      rw [List.map_map, sum_map_eq_length _ _ (fun q hq => by simpa using haux q hq)]
      simp
    obtain ⟨m, hm⟩ := cv_merge_isSome
      (w.ReadImageToCVMat (p.flow_image_data_param.root_folder ++ p0)
          p.flow_image_data_param.new_height p.flow_image_data_param.new_width
          p.flow_image_data_param.is_color none)
      ((record.drop 2).map (fun q =>
        w.ReadImageToCVMat (p.flow_image_data_param.root_folder ++ q)
          p.flow_image_data_param.new_height p.flow_image_data_param.new_width
          false (some false)))
      (by
        intro m hm
        obtain ⟨q, hq, rfl⟩ := List.mem_map.mp hm
        exact hsz q hq)
      (by rw [hsum]; omega)
      (by rw [hsum, hbase]; exact hmax)
    rw [hm]
    exact ⟨m, rfl⟩
  · intro s s1 hrec hnat hs1
    unfold nativeReshape at hs1
    rw [if_pos hnat, hrec] at hs1
    simp only [h0] at hs1
    obtain ⟨_, _, hh0, hw0⟩ := hnat
    rw [hh0, hw0] at hbase haux
    rw [hh0, hw0] at hs1
    split at hs1
    · cases hs1
    · rename_i cv_img himg
      cases hs1
      have hc := appendFlows_channels w _ record _ _ _ cv_img hlen haux himg
      simp only [Blob.Reshape]
      rw [hc.1, hbase]

/-- C2 at the record "a.png b.png aux1.png aux2.png" with `is_color = true`: the
assembled input buffer has 5 channels. -/
theorem C2_assembled_channels_witness :
    ∃ cv_img, setupInput (demoParam 1 0) (demoWorld none)
        ["a.png", "b.png", "aux1.png", "aux2.png"] = .ok cv_img
      ∧ cv_img.channels = 5 :=
  ⟨_, rfl,
    ((C2_assembled_channels (demoParam 1 0) (demoWorld none)
      ["a.png", "b.png", "aux1.png", "aux2.png"] "a.png" (by decide) rfl (by decide)
      (by decide)).1 _ (Or.inl rfl)).1⟩

/-- C9: when setup reaches the record at its cursor and that record's input buffer
(`cv_img`, base plus auxiliary channels) and label (`cv_lab`) are decoded, setup fails
with "Can only handle grayscale label images" if the label has a channel count other
than 1, fails with "Input and label image heights and widths must match" if its height
or width differs from the input buffer's, and otherwise succeeds with the input blobs
shaped `{batch_size, channels, H, W}` and the label blobs `{batch_size, 1, H, W}`, where
`H = W = crop_size` when `crop_size > 0` and `H, W` are the input buffer's otherwise. -/
theorem C9_setup_label_validation (p : LayerParameter) (w : World) (seed draw c : Nat)
    (record : Record) (cv_img cv_lab : Mat)
    (hres : (p.flow_image_data_param.new_height = 0 ∧ p.flow_image_data_param.new_width = 0) ∨
      (p.flow_image_data_param.new_height > 0 ∧ p.flow_image_data_param.new_width > 0))
    (hskip : skipAhead p.flow_image_data_param.rand_skip draw
      (setupShuffle p w seed (readManifest (w.file p.flow_image_data_param.source))).1.length
      = .ok c)
    (hrec : (setupShuffle p w seed
      (readManifest (w.file p.flow_image_data_param.source))).1[c]? = some record)
    (himg : setupInput p w record = .ok cv_img)
    (hlab : readLabel p w record = .ok cv_lab) :
    (cv_lab.channels ≠ 1 → DataLayerSetUp p w seed draw = .error .grayscaleLabel)
    ∧ (cv_lab.channels = 1 → (cv_lab.rows ≠ cv_img.rows ∨ cv_lab.cols ≠ cv_img.cols) →
        DataLayerSetUp p w seed draw = .error .shapeMismatch)
    ∧ (cv_lab.channels = 1 → cv_lab.rows = cv_img.rows → cv_lab.cols = cv_img.cols →
        ∃ st, DataLayerSetUp p w seed draw = .ok st
          ∧ st.lines_id_ = c
          ∧ st.top0 = ⟨p.flow_image_data_param.batch_size, cv_img.channels,
              if p.transform_param.crop_size > 0 then p.transform_param.crop_size else cv_img.rows,
              if p.transform_param.crop_size > 0 then p.transform_param.crop_size else cv_img.cols⟩
          ∧ st.top1 = ⟨p.flow_image_data_param.batch_size, 1,
              if p.transform_param.crop_size > 0 then p.transform_param.crop_size else cv_lab.rows,
              if p.transform_param.crop_size > 0 then p.transform_param.crop_size else cv_lab.cols⟩
          ∧ st.prefetch_data_.shape = st.top0 ∧ st.prefetch_label_.shape = st.top1
          ∧ st.prefetch_data_.items.length = p.flow_image_data_param.batch_size
          ∧ st.prefetch_label_.items.length = p.flow_image_data_param.batch_size
          ∧ st.top0.height = st.top1.height ∧ st.top0.width = st.top1.width) := by
  have hsetup : DataLayerSetUp p w seed draw =
      (if cv_lab.channels ≠ 1 then .error .grayscaleLabel
        else if ¬ (cv_lab.rows = cv_img.rows ∧ cv_lab.cols = cv_img.cols) then
          .error .shapeMismatch
        else .ok (shapeBlobs p
          (setupShuffle p w seed (readManifest (w.file p.flow_image_data_param.source))).1 c
          (setupShuffle p w seed (readManifest (w.file p.flow_image_data_param.source))).2
          cv_img.channels cv_img.rows cv_img.cols)) := by
    unfold DataLayerSetUp
    rw [if_neg (not_not.mpr hres), hskip]
    simp only
    unfold setupFirstRecord
    rw [hrec]
    simp only [himg, hlab]
  refine ⟨fun hch => ?_, fun hch hsz => ?_, fun hch hr hc => ?_⟩
  · rw [hsetup, if_pos hch]
  · rw [hsetup, if_neg (not_not.mpr hch), if_pos]
    rcases hsz with h | h
    · exact fun hh => h hh.1
    · exact fun hh => h hh.2
  · rw [hsetup, if_neg (not_not.mpr hch), if_neg (not_not.mpr ⟨hr, hc⟩)]
    refine ⟨_, rfl, ?_⟩
    unfold shapeBlobs
    by_cases hcrop : p.transform_param.crop_size > 0
    · simp [hcrop, Blob.Reshape]
    · simp [hcrop, Blob.Reshape, hr, hc]

/-- C9 at the 4-record manifest with batch size 2: blobs `{2, 3, 2, 2}` and
`{2, 1, 2, 2}`. -/
theorem C9_setup_label_validation_witness :
    ∃ st, DataLayerSetUp (demoParam 2 0) (demoWorld (some fourRecords)) 0 0 = .ok st
      ∧ st.top0 = ⟨2, 3, 2, 2⟩ ∧ st.top1 = ⟨2, 1, 2, 2⟩ := by
  obtain ⟨st, h1, _, h3, h4, _⟩ :=
    (C9_setup_label_validation (demoParam 2 0) (demoWorld (some fourRecords)) 0 0 0
      ["a0.png", "l0.png"] (demoDecode "a0.png" 0 0 true none)
      (demoDecode "l0.png" 0 0 false (some true))
      (Or.inl ⟨rfl, rfl⟩) rfl rfl rfl rfl).2.2 rfl rfl rfl
  exact ⟨st, h1, h3, h4⟩
/-! ## Batch fill: the steps of one item -/

theorem readItem_error (p : LayerParameter) (w : World) (record : Record) (e : Failure)
    (h : readItem p w record = .error e) :
    e = .pathOutOfRange ∨ (∃ q, e = .couldNotLoad q) ∨ e = .cvMergeAssert := by
  unfold readItem at h
  split at h
  · cases h; exact Or.inl rfl
  · split at h
    · cases h; exact Or.inr (Or.inl ⟨_, rfl⟩)
    · split at h
      · rename_i e1 he1
        cases h
        exact Or.inr (Or.inr (appendFlows_error _ _ _ _ _ _ _ he1))
      · split at h
        · cases h; exact Or.inl rfl
        · split at h
          · cases h; exact Or.inr (Or.inl ⟨_, rfl⟩)
          · cases h

theorem transformItem_ok (item_id : Nat) (cv_img cv_lab : Mat) (st st1 : Layer)
    (h : transformItem item_id cv_img cv_lab st = .ok st1) :
    item_id < st.prefetch_data_.items.length ∧ item_id < st.prefetch_label_.items.length
    ∧ st1.lines_ = st.lines_ ∧ st1.lines_id_ = st.lines_id_
    ∧ st1.prefetch_rng_ = st.prefetch_rng_
    ∧ st1.prefetch_data_.shape = st.prefetch_data_.shape
    ∧ st1.prefetch_label_.shape = st.prefetch_label_.shape
    ∧ st1.transformed_data_ = st.transformed_data_
    ∧ st1.prefetch_data_.items = st.prefetch_data_.items.set item_id (some ⟨cv_img, none⟩)
    ∧ st1.prefetch_label_.items
        = st.prefetch_label_.items.set item_id (some ⟨cv_lab, some true⟩) := by
  unfold transformItem at h
  split at h
  · rename_i hs
    cases h
    exact ⟨hs.1, hs.2, rfl, rfl, rfl, rfl, rfl, rfl, rfl, rfl⟩
  · cases h

theorem transformItem_error (item_id : Nat) (cv_img cv_lab : Mat) (st : Layer) (e : Failure)
    (h : transformItem item_id cv_img cv_lab st = .error e) : e = .slotOutOfRange := by
  unfold transformItem at h
  split at h
  · cases h
  · cases h; rfl

theorem ShuffleImages_ok (w : World) (st st1 : Layer) (h : ShuffleImages w st = .ok st1) :
    st1.lines_.length = st.lines_.length ∧ st1.lines_id_ = st.lines_id_
    ∧ st1.prefetch_data_ = st.prefetch_data_ ∧ st1.prefetch_label_ = st.prefetch_label_
    ∧ st1.transformed_data_ = st.transformed_data_ := by
  unfold ShuffleImages at h
  split at h
  · cases h
  · cases h
    exact ⟨(w.shuffle_perm _ _).length_eq, rfl, rfl, rfl, rfl⟩

theorem advance_ok (p : LayerParameter) (w : World) (n : Nat) (st st1 : Layer)
    (h : advance p w n st = .ok st1) :
    st1.lines_.length = st.lines_.length
    ∧ st1.lines_id_ = (if st.lines_id_ + 1 ≥ n then 0 else st.lines_id_ + 1)
    ∧ st1.prefetch_data_ = st.prefetch_data_ ∧ st1.prefetch_label_ = st.prefetch_label_
    ∧ st1.transformed_data_ = st.transformed_data_
    ∧ (p.flow_image_data_param.shuffle = false → st1.lines_ = st.lines_) := by
  unfold advance at h
  by_cases hn : st.lines_id_ + 1 ≥ n
  · rw [if_pos hn] at h
    by_cases hs : p.flow_image_data_param.shuffle = true
    · rw [if_pos hs] at h
      have := ShuffleImages_ok w _ _ h
      exact ⟨this.1, by rw [if_pos hn]; exact this.2.1, this.2.2.1, this.2.2.2.1, this.2.2.2.2,
        fun hf => by rw [hf] at hs; cases hs⟩
    · rw [if_neg hs] at h
      cases h
      exact ⟨rfl, by rw [if_pos hn], rfl, rfl, rfl, fun _ => rfl⟩
  · rw [if_neg hn] at h
    cases h
    exact ⟨rfl, by rw [if_neg hn], rfl, rfl, rfl, fun _ => rfl⟩

theorem advance_error (p : LayerParameter) (w : World) (n : Nat) (st : Layer) (e : Failure)
    (h : advance p w n st = .error e) : e = .nullRng := by
  unfold advance at h
  split at h
  · split at h
    · unfold ShuffleImages at h
      split at h
      · cases h; rfl
      · cases h
    · cases h
  · cases h

/-- What one iteration of the item loop computes once its record is read. -/
theorem fillItem_eq (p : LayerParameter) (w : World) (n item_id : Nat) (st : Layer)
    (record : Record) (cv_img cv_lab : Mat)
    (hid : st.lines_id_ < n) (hrec : st.lines_[st.lines_id_]? = some record)
    (hread : readItem p w record = .ok (cv_img, cv_lab)) :
    fillItem p w n item_id st =
      match transformItem item_id cv_img cv_lab st with
      | .error e => .error e
      | .ok st1 =>
        if ¬ (p.transform_param.mirror = false ∧ p.transform_param.crop_size = 0) then
          .error .stochasticTransform
        else advance p w n st1 := by
  unfold fillItem
  rw [if_neg (not_not.mpr hid), hrec]
  simp only [hread]

theorem fillItem_ok (p : LayerParameter) (w : World) (n item_id : Nat) (st st1 : Layer)
    (h : fillItem p w n item_id st = .ok st1) :
    st.lines_id_ < n
    ∧ (p.transform_param.mirror = false ∧ p.transform_param.crop_size = 0)
    ∧ st1.lines_.length = st.lines_.length
    ∧ st1.lines_id_ = (if st.lines_id_ + 1 ≥ n then 0 else st.lines_id_ + 1)
    ∧ st1.prefetch_data_.shape = st.prefetch_data_.shape
    ∧ st1.transformed_data_ = st.transformed_data_ := by
  unfold fillItem at h
  split at h
  · cases h
  · rename_i hid
    split at h
    · cases h
    · split at h
      · cases h
      · split at h
        · cases h
        · rename_i s1 hs1
          split at h
          · cases h
          · rename_i hg
            have ht := transformItem_ok _ _ _ _ _ hs1
            have ha := advance_ok _ _ _ _ _ h
            refine ⟨not_not.mp hid, not_not.mp hg, ?_, ?_, ?_, ?_⟩
            · rw [ha.1, ht.2.2.1]
            · rw [ha.2.1, ht.2.2.2.1]
            · rw [ha.2.2.1, ht.2.2.2.2.2.1]
            · rw [ha.2.2.2.2.1, ht.2.2.2.2.2.2.2.1]

theorem fillItem_error (p : LayerParameter) (w : World) (n item_id : Nat) (st : Layer)
    (e : Failure) (h : fillItem p w n item_id st = .error e) :
    (e = .linesIdRange ∧ ¬ st.lines_id_ < n)
    ∨ (e = .linesOutOfRange ∧ st.lines_.length ≤ st.lines_id_)
    ∨ (e = .stochasticTransform
        ∧ ¬ (p.transform_param.mirror = false ∧ p.transform_param.crop_size = 0))
    ∨ e = .pathOutOfRange ∨ (∃ q, e = .couldNotLoad q) ∨ e = .cvMergeAssert
    ∨ e = .slotOutOfRange ∨ e = .nullRng := by
  unfold fillItem at h
  split at h
  · rename_i hid
    cases h
    exact Or.inl ⟨rfl, hid⟩
  · split at h
    · rename_i hnone
      cases h
      refine Or.inr (Or.inl ⟨rfl, ?_⟩)
      by_contra hlt
      rw [List.getElem?_eq_getElem (Nat.lt_of_not_le hlt)] at hnone
      cases hnone
    · split at h
      · rename_i e1 he1
        cases h
        rcases readItem_error _ _ _ _ he1 with h1 | h1 | h1
        · exact Or.inr (Or.inr (Or.inr (Or.inl h1)))
        · exact Or.inr (Or.inr (Or.inr (Or.inr (Or.inl h1))))
        · exact Or.inr (Or.inr (Or.inr (Or.inr (Or.inr (Or.inl h1)))))
      · split at h
        · rename_i e1 he1
          cases h
          exact Or.inr (Or.inr (Or.inr (Or.inr (Or.inr (Or.inr
            (Or.inl (transformItem_error _ _ _ _ _ he1)))))))
        · split at h
          · rename_i hg
            cases h
            exact Or.inr (Or.inr (Or.inl ⟨rfl, hg⟩))
          · exact Or.inr (Or.inr (Or.inr (Or.inr (Or.inr (Or.inr
              (Or.inr (advance_error _ _ _ _ _ h)))))))

theorem nativeReshape_ok (p : LayerParameter) (w : World) (st st1 : Layer)
    (h : nativeReshape p w st = .ok st1) :
    st1.lines_ = st.lines_ ∧ st1.lines_id_ = st.lines_id_ := by
  unfold nativeReshape at h
  split at h
  · split at h
    · cases h
    · split at h
      · cases h
      · split at h
        · cases h
        · cases h; exact ⟨rfl, rfl⟩
  · cases h; exact ⟨rfl, rfl⟩

theorem nativeReshape_error (p : LayerParameter) (w : World) (st : Layer) (e : Failure)
    (h : nativeReshape p w st = .error e) :
    (e = .linesOutOfRange ∧ st.lines_.length ≤ st.lines_id_) ∨ e = .pathOutOfRange
      ∨ e = .cvMergeAssert := by
  unfold nativeReshape at h
  split at h
  · split at h
    · rename_i hnone
      cases h
      refine Or.inl ⟨rfl, ?_⟩
      by_contra hlt
      rw [List.getElem?_eq_getElem (Nat.lt_of_not_le hlt)] at hnone
      cases hnone
    · split at h
      · cases h; exact Or.inr (Or.inl rfl)
      · split at h
        · rename_i e1 he1
          cases h
          exact Or.inr (Or.inr (appendFlows_error _ _ _ _ _ _ _ he1))
        · cases h
  · cases h
theorem fillLoop_succ_error (p : LayerParameter) (w : World) (n item_id remaining : Nat)
    (st : Layer)
    (hgate : ¬ (p.transform_param.mirror = false ∧ p.transform_param.crop_size = 0)) :
    ∃ e, fillLoop p w n item_id (remaining + 1) st = .error e := by
  unfold fillLoop
  cases h : fillItem p w n item_id st with
  | error e => exact ⟨e, rfl⟩
  | ok st1 => exact absurd (fillItem_ok p w n item_id st st1 h).2.1 hgate

theorem fillLoop_cursor (p : LayerParameter) (w : World) (n : Nat) (remaining : Nat) :
    ∀ (item_id : Nat) (st : Layer), st.lines_.length = n → st.lines_id_ < n →
      fillLoop p w n item_id remaining st ≠ .error .linesIdRange
      ∧ fillLoop p w n item_id remaining st ≠ .error .linesOutOfRange
      ∧ ((p.transform_param.mirror = false ∧ p.transform_param.crop_size = 0) →
          fillLoop p w n item_id remaining st ≠ .error .stochasticTransform)
      ∧ ∀ st1, fillLoop p w n item_id remaining st = .ok st1 →
          st1.lines_.length = n ∧ st1.lines_id_ < n := by
  induction remaining with
  | zero =>
    intro item_id st hn hc
    unfold fillLoop
    refine ⟨by simp, by simp, fun _ => by simp, fun st1 h => ?_⟩
    cases h
    exact ⟨hn, hc⟩
  | succ r ih =>
    intro item_id st hn hc
    unfold fillLoop
    cases h : fillItem p w n item_id st with
    | error e =>
      simp only
      rcases fillItem_error p w n item_id st e h with h1 | h1 | h1 | h1 | h1 | h1 | h1 | h1
      · exact absurd hc h1.2
      · exact absurd hc (by rw [hn] at h1; exact Nat.not_lt.mpr h1.2)
      · rw [h1.1]
        exact ⟨by simp, by simp, fun hg => absurd hg h1.2, fun st1 hh => by cases hh⟩
      · rw [h1]
        exact ⟨by simp, by simp, fun _ => by simp, fun st1 hh => by cases hh⟩
      · obtain ⟨q, rfl⟩ := h1
        exact ⟨by simp, by simp, fun _ => by simp, fun st1 hh => by cases hh⟩
      · rw [h1]
        exact ⟨by simp, by simp, fun _ => by simp, fun st1 hh => by cases hh⟩
      · rw [h1]
        exact ⟨by simp, by simp, fun _ => by simp, fun st1 hh => by cases hh⟩
      · rw [h1]
        exact ⟨by simp, by simp, fun _ => by simp, fun st1 hh => by cases hh⟩
    | ok st1 =>
      simp only
      have hok := fillItem_ok p w n item_id st st1 h
      have hlen : st1.lines_.length = n := by rw [hok.2.2.1, hn]
      have hcur : st1.lines_id_ < n := by
        rw [hok.2.2.2.1]
        split <;> omega
      exact ih (item_id + 1) st1 hlen hcur

theorem InternalThreadEntry_cursor (p : LayerParameter) (w : World) (st : Layer)
    (hc : st.lines_id_ < st.lines_.length) :
    InternalThreadEntry p w st ≠ .error .linesIdRange
    ∧ InternalThreadEntry p w st ≠ .error .linesOutOfRange
    ∧ ((p.transform_param.mirror = false ∧ p.transform_param.crop_size = 0) →
        InternalThreadEntry p w st ≠ .error .stochasticTransform)
    ∧ ∀ st1, InternalThreadEntry p w st = .ok st1 →
        st1.lines_.length = st.lines_.length ∧ st1.lines_id_ < st1.lines_.length := by
  unfold InternalThreadEntry
  split
  · exact ⟨by simp, by simp, fun _ => by simp, fun st1 hh => by cases hh⟩
  · split
    · exact ⟨by simp, by simp, fun _ => by simp, fun st1 hh => by cases hh⟩
    · cases h : nativeReshape p w st with
      | error e =>
        simp only
        rcases nativeReshape_error p w st e h with h1 | h1 | h1
        · exact absurd hc (Nat.not_lt.mpr h1.2)
        · rw [h1]
          exact ⟨by simp, by simp, fun _ => by simp, fun st1 hh => by cases hh⟩
        · rw [h1]
          exact ⟨by simp, by simp, fun _ => by simp, fun st1 hh => by cases hh⟩
      | ok s1 =>
        simp only
        have hs := nativeReshape_ok p w st s1 h
        have hl := fillLoop_cursor p w s1.lines_.length p.flow_image_data_param.batch_size 0 s1
          rfl (by rw [hs.1, hs.2]; exact hc)
        refine ⟨hl.1, hl.2.1, hl.2.2.1, fun st1 hh => ?_⟩
        have := hl.2.2.2 st1 hh
        rw [hs.1] at this
        exact ⟨this.1, by rw [this.1]; exact this.2⟩

theorem InternalThreadEntry_gate_error (p : LayerParameter) (w : World) (st : Layer)
    (hb : 1 ≤ p.flow_image_data_param.batch_size)
    (hgate : ¬ (p.transform_param.mirror = false ∧ p.transform_param.crop_size = 0)) :
    ∃ e, InternalThreadEntry p w st = .error e := by
  unfold InternalThreadEntry
  split
  · exact ⟨_, rfl⟩
  · split
    · exact ⟨_, rfl⟩
    · cases h : nativeReshape p w st with
      | error e => exact ⟨e, rfl⟩
      | ok s1 =>
        simp only
        obtain ⟨b, hb'⟩ : ∃ b, p.flow_image_data_param.batch_size = b + 1 :=
          ⟨p.flow_image_data_param.batch_size - 1, by omega⟩
        rw [hb']
        exact fillLoop_succ_error p w _ 0 b s1 hgate

theorem fills_cursor (p : LayerParameter) (w : World) (st : Layer)
    (hc : st.lines_id_ < st.lines_.length) (k : Nat) :
    fills p w k st ≠ .error .linesIdRange
    ∧ fills p w k st ≠ .error .linesOutOfRange
    ∧ ((p.transform_param.mirror = false ∧ p.transform_param.crop_size = 0) →
        fills p w k st ≠ .error .stochasticTransform)
    ∧ ∀ st1, fills p w k st = .ok st1 →
        st1.lines_.length = st.lines_.length ∧ st1.lines_id_ < st1.lines_.length := by
  induction k with
  | zero =>
    unfold fills
    refine ⟨by simp, by simp, fun _ => by simp, fun st1 h => ?_⟩
    cases h
    exact ⟨rfl, hc⟩
  | succ k ih =>
    unfold fills
    cases h : fills p w k st with
    | error e =>
      simp only
      rw [h] at ih
      exact ⟨ih.1, ih.2.1, ih.2.2.1, fun st1 hh => by cases hh⟩
    | ok s1 =>
      simp only
      rw [h] at ih
      have hs := ih.2.2.2 s1 rfl
      have := InternalThreadEntry_cursor p w s1 hs.2
      refine ⟨this.1, this.2.1, this.2.2.1, fun st1 hh => ?_⟩
      have h2 := this.2.2.2 st1 hh
      exact ⟨by rw [h2.1, hs.1], h2.2⟩

theorem fillItem_no_gate (p : LayerParameter) (w : World) (n item_id : Nat) (s : Layer)
    (hcfg : p.transform_param.mirror = false ∧ p.transform_param.crop_size = 0) :
    fillItem p w n item_id s ≠ .error .stochasticTransform := by
  intro h
  rcases fillItem_error p w n item_id s _ h with h1 | h1 | h1 | h1 | h1 | h1 | h1 | h1
  · cases h1.1
  · cases h1.1
  · exact h1.2 hcfg
  · cases h1
  · obtain ⟨q, hq⟩ := h1; cases hq
  · cases h1
  · cases h1
  · cases h1

theorem fillLoop_no_gate (p : LayerParameter) (w : World) (n : Nat)
    (hcfg : p.transform_param.mirror = false ∧ p.transform_param.crop_size = 0)
    (remaining : Nat) :
    ∀ (item_id : Nat) (s : Layer),
      fillLoop p w n item_id remaining s ≠ .error .stochasticTransform := by
  induction remaining with
  | zero =>
    intro item_id s
    unfold fillLoop
    simp
  | succ r ih =>
    intro item_id s
    unfold fillLoop
    cases h : fillItem p w n item_id s with
    | error e =>
      simp only
      intro he
      cases he
      exact fillItem_no_gate p w n item_id s hcfg h
    | ok s1 => exact ih (item_id + 1) s1

theorem InternalThreadEntry_no_gate (p : LayerParameter) (w : World) (s : Layer)
    (hcfg : p.transform_param.mirror = false ∧ p.transform_param.crop_size = 0) :
    InternalThreadEntry p w s ≠ .error .stochasticTransform := by
  unfold InternalThreadEntry
  split
  · simp
  · split
    · simp
    · cases h : nativeReshape p w s with
      | error e =>
        simp only
        intro he
        cases he
        rcases nativeReshape_error p w s _ h with h1 | h1 | h1
        · cases h1.1
        · cases h1
        · cases h1
      | ok s1 => exact fillLoop_no_gate p w _ hcfg _ 0 s1

theorem fills_no_gate (p : LayerParameter) (w : World) (s : Layer)
    (hcfg : p.transform_param.mirror = false ∧ p.transform_param.crop_size = 0) (k : Nat) :
    fills p w k s ≠ .error .stochasticTransform := by
  induction k with
  | zero => unfold fills; simp
  | succ k ih =>
    unfold fills
    cases h : fills p w k s with
    | error e =>
      simp only
      intro he
      cases he
      exact ih h
    | ok s1 => exact InternalThreadEntry_no_gate p w s1 hcfg

/-- C7: for every configuration with `batch_size >= 1`. If mirror is enabled or
`crop_size` is non-zero, no item is ever filled: every batch fill ends in a failure,
so does every sequence of fills, and an item that reaches the transform gate (its
record read, its slices written) fails there with the gate's check. If mirror is
disabled and `crop_size` is 0, the gate's check fails in no item, no batch fill and
no sequence of fills. -/
theorem C7_transform_gate (p : LayerParameter) (w : World) (st : Layer)
    (hb : 1 ≤ p.flow_image_data_param.batch_size) :
    ((p.transform_param.mirror = true ∨ p.transform_param.crop_size ≠ 0) →
      (∃ e, InternalThreadEntry p w st = .error e)
      ∧ (∀ k, 1 ≤ k → ∃ e, fills p w k st = .error e)
      ∧ (∀ n item_id s, ∃ e, fillItem p w n item_id s = .error e)
      ∧ (∀ n item_id s record cv_img cv_lab, s.lines_id_ < n →
          s.lines_[s.lines_id_]? = some record →
          readItem p w record = .ok (cv_img, cv_lab) →
          item_id < s.prefetch_data_.items.length →
          item_id < s.prefetch_label_.items.length →
          fillItem p w n item_id s = .error .stochasticTransform))
    ∧ ((p.transform_param.mirror = false ∧ p.transform_param.crop_size = 0) →
      (∀ n item_id s, fillItem p w n item_id s ≠ .error .stochasticTransform)
      ∧ InternalThreadEntry p w st ≠ .error .stochasticTransform
      ∧ (∀ k, fills p w k st ≠ .error .stochasticTransform)) := by
  constructor
  · intro hcfg
    have hgate : ¬ (p.transform_param.mirror = false ∧ p.transform_param.crop_size = 0) := by
      rintro ⟨hm, hcz⟩
      rcases hcfg with h | h
      · rw [hm] at h; cases h
      · exact h hcz
    have hite : ∀ s, ∃ e, InternalThreadEntry p w s = .error e :=
      fun s => InternalThreadEntry_gate_error p w s hb hgate
    refine ⟨hite st, ?_, ?_, ?_⟩
    · intro k hk
      obtain ⟨j, rfl⟩ : ∃ j, k = j + 1 := ⟨k - 1, by omega⟩
      unfold fills
      cases h : fills p w j st with
      | error e => exact ⟨e, rfl⟩
      | ok s1 => exact hite s1
    · intro n item_id s
      cases h : fillItem p w n item_id s with
      | error e => exact ⟨e, rfl⟩
      | ok s1 => exact absurd (fillItem_ok p w n item_id s s1 h).2.1 hgate
    · intro n item_id s record cv_img cv_lab hid hrec hread hs1 hs2
      rw [fillItem_eq p w n item_id s record cv_img cv_lab hid hrec hread]
      unfold transformItem
      rw [if_pos ⟨hs1, hs2⟩]
      simp only
      rw [if_pos hgate]
  · intro hcfg
    exact ⟨fun n item_id s => fillItem_no_gate p w n item_id s hcfg,
      InternalThreadEntry_no_gate p w st hcfg, fun k => fills_no_gate p w st hcfg k⟩

/-- C7 with mirroring switched on, batch size 2 and the 4-record manifest: the first
item of the first batch fill fails at the gate. -/
theorem C7_transform_gate_witness :
    InternalThreadEntry (mirrorParam 2) (demoWorld (some fourRecords)) (demoLayer fourRecords 2 0)
      = .error .stochasticTransform
    ∧ ∃ e, fills (mirrorParam 2) (demoWorld (some fourRecords)) 3 (demoLayer fourRecords 2 0)
        = .error e :=
  ⟨rfl, ((C7_transform_gate (mirrorParam 2) (demoWorld (some fourRecords))
    (demoLayer fourRecords 2 0) (by decide)).1 (Or.inl rfl)).2.1 3 (by decide)⟩

/-- C10: the cursor invariant `0 <= Cursor < len(Manifest)`. It holds after every
successful setup, with or without random skip. From a state in which it holds, for
every batch size and with or without shuffle: no item step, batch fill or sequence of
fills fails the per-item assertion `CHECK_GT(lines_size, lines_id_)` or reads
`lines_[lines_id_]` out of range; every item step that completes keeps the manifest
length and the invariant, and leaves the cursor at 0 exactly when the item consumed
was the last record of the manifest; every batch fill and sequence of fills that
completes keeps the manifest length and the invariant. -/
theorem C10_cursor_invariant (p : LayerParameter) (w : World) :
    (∀ seed draw st, DataLayerSetUp p w seed draw = .ok st →
      st.lines_id_ < st.lines_.length)
    ∧ (∀ st item_id, st.lines_id_ < st.lines_.length →
        fillItem p w st.lines_.length item_id st ≠ .error .linesIdRange
        ∧ fillItem p w st.lines_.length item_id st ≠ .error .linesOutOfRange
        ∧ ∀ st1, fillItem p w st.lines_.length item_id st = .ok st1 →
            st1.lines_.length = st.lines_.length
            ∧ st1.lines_id_ < st1.lines_.length
            ∧ (st1.lines_id_ = 0 ↔ st.lines_id_ + 1 = st.lines_.length))
    ∧ (∀ st, st.lines_id_ < st.lines_.length →
        InternalThreadEntry p w st ≠ .error .linesIdRange
        ∧ InternalThreadEntry p w st ≠ .error .linesOutOfRange
        ∧ ∀ st1, InternalThreadEntry p w st = .ok st1 →
            st1.lines_.length = st.lines_.length ∧ st1.lines_id_ < st1.lines_.length)
    ∧ (∀ st k, st.lines_id_ < st.lines_.length →
        fills p w k st ≠ .error .linesIdRange
        ∧ fills p w k st ≠ .error .linesOutOfRange
        ∧ ∀ st1, fills p w k st = .ok st1 →
            st1.lines_.length = st.lines_.length ∧ st1.lines_id_ < st1.lines_.length) := by
  refine ⟨?_, ?_, ?_, ?_⟩
  · intro seed draw st h
    exact (setup_ok_cursor p w seed draw st h).2.1
  · intro st item_id hc
    refine ⟨?_, ?_, ?_⟩
    · intro h
      rcases fillItem_error p w _ item_id st _ h with h1 | h1 | h1 | h1 | h1 | h1 | h1 | h1
      · exact h1.2 hc
      · cases h1.1
      · cases h1.1
      · cases h1
      · obtain ⟨q, hq⟩ := h1; cases hq
      · cases h1
      · cases h1
      · cases h1
    · intro h
      rcases fillItem_error p w _ item_id st _ h with h1 | h1 | h1 | h1 | h1 | h1 | h1 | h1
      · cases h1.1
      · exact absurd hc (Nat.not_lt.mpr h1.2)
      · cases h1.1
      · cases h1
      · obtain ⟨q, hq⟩ := h1; cases hq
      · cases h1
      · cases h1
      · cases h1
    · intro st1 h
      have hok := fillItem_ok p w _ item_id st st1 h
      refine ⟨hok.2.2.1, ?_, ?_⟩
      · rw [hok.2.2.1, hok.2.2.2.1]
        split <;> omega
      · rw [hok.2.2.2.1]
        split <;> omega
  · intro st hc
    have h := InternalThreadEntry_cursor p w st hc
    exact ⟨h.1, h.2.1, h.2.2.2⟩
  · intro st k hc
    have h := fills_cursor p w st hc k
    exact ⟨h.1, h.2.1, h.2.2.2⟩

/-- C10 on the 5-record manifest, batch size 2: from cursor 4 one item step wraps to 0,
from cursor 3 it does not. -/
theorem C10_cursor_invariant_witness :
    (∃ st1, fillItem (demoParam 2 0) (demoWorld (some fiveRecords)) 5 0
        (demoLayer fiveRecords 2 4) = .ok st1 ∧ st1.lines_id_ = 0)
    ∧ (∃ st1, fillItem (demoParam 2 0) (demoWorld (some fiveRecords)) 5 0
        (demoLayer fiveRecords 2 3) = .ok st1 ∧ st1.lines_id_ ≠ 0) :=
  ⟨⟨_, rfl, (((C10_cursor_invariant (demoParam 2 0) (demoWorld (some fiveRecords))).2.1
      (demoLayer fiveRecords 2 4) 0 (by decide)).2.2 _ rfl).2.2.mpr (by decide)⟩,
   ⟨_, rfl, fun h => absurd ((((C10_cursor_invariant (demoParam 2 0)
      (demoWorld (some fiveRecords))).2.1
      (demoLayer fiveRecords 2 3) 0 (by decide)).2.2 _ rfl).2.2.mp h) (by decide)⟩⟩
/-! ## Batch order (C1) -/

end caffe
